import Mathlib

/-!
Verification of the operating-system-config actuator of the
gardener-extension-os-gardenlinux repository.

The development embeds `pkg/controller/operatingsystemconfig/actuator.go`
shallowly in Lean: Go strings become `String`, Go slices become `List`,
Go pointers become `Option`, and Go's `(value, error)` returns become
`Except` or an explicit error component.  External collaborators (the
gardener file/unit-to-disk renderers) are passed in as opaque functions,
exactly as the actuator consumes them; package constants and the one-time
template store of the `gardenlinux` and `memoryone` packages, whose
sources are outside the verified tree, are modelled from the spec as
explicit immutable parameters.
-/

set_option maxRecDepth 40000

namespace GardenLinuxExt

/-- Go `error` values, modelled by their message strings. -/
abbrev GoError := String

/-- `extensionsv1alpha1.FileContentInline` (only the field the actuator sets). -/
structure FileContentInline where
  data : String
deriving DecidableEq, Repr

/-- `extensionsv1alpha1.FileContent` (only the field the actuator sets). -/
structure FileContent where
  inline : Option FileContentInline
deriving DecidableEq, Repr

/-- `extensionsv1alpha1.File`. -/
structure File where
  path : String
  content : FileContent
  permissions : Option Int
deriving DecidableEq, Repr

/-- `extensionsv1alpha1.DropIn`. -/
structure DropIn where
  name : String
  content : String
deriving DecidableEq, Repr

/-- `extensionsv1alpha1.Unit` (the fields the actuator reads or sets:
name, drop-ins, referenced file paths). -/
structure Unit where
  name : String
  dropIns : List DropIn
  filePaths : List String
deriving DecidableEq, Repr

/-- `extensionsv1alpha1.InPlaceUpdateConfig`: `OSUpdateCommand *string`
and `OSUpdateCommandArgs []string`. -/
structure InPlaceUpdateConfig where
  osUpdateCommand : Option String
  osUpdateCommandArgs : List String
deriving DecidableEq, Repr

/-- `memoryone.OperatingSystemConfiguration`: the optional
`SystemMemory`/`MemoryTopology` fields of the memory-variant provider
configuration. -/
structure MemoryOneConfiguration where
  systemMemory : Option String
  memoryTopology : Option String
deriving DecidableEq, Repr

/-- The spec part of `extensionsv1alpha1.OperatingSystemConfig` read by the
actuator.  `providerConfigDecoded` carries the outcome of decoding the
raw provider configuration (see `Configuration` below). -/
structure OperatingSystemConfigSpec where
  type : String
  purpose : String
  osVersion : Option String
  files : List File
  units : List Unit
  providerConfigDecoded : Except GoError (Option MemoryOneConfiguration)

/-- `extensionsv1alpha1.OperatingSystemConfig`: object namespace plus spec. -/
structure OperatingSystemConfig where
  namespaceName : String
  spec : OperatingSystemConfigSpec

/-- `extensionsv1alpha1.OperatingSystemConfigPurposeProvision`. -/
def OperatingSystemConfigPurposeProvision : String := "provision"

/-- `extensionsv1alpha1.OperatingSystemConfigPurposeReconcile`. -/
def OperatingSystemConfigPurposeReconcile : String := "reconcile"

/-- Modelled from the spec: the reserved memory-virtualization variant
identifier `memoryone.OSTypeMemoryOneGardenLinux`, defined in the
`memoryone` package which is not part of the verified tree. -/
def OSTypeMemoryOneGardenLinux : String := "memoryone-gardenlinux"

/-- Modelled from the spec: `memoryone.Configuration` derives the optional
memory-variant configuration from the request (decoding its raw provider
configuration), failing when it is malformed.  The `memoryone` package is
not part of the verified tree, so the decode outcome is carried on the
request itself. -/
def Configuration (osc : OperatingSystemConfig) :
    Except GoError (Option MemoryOneConfiguration) :=
  osc.spec.providerConfigDecoded

/-- Modelled from the spec: the fixed constants and one-time template store
of the `gardenlinux` package (scripts directory root, uniform script
permissions, and the four script assets loaded at process start), which
are immutable for the process lifetime.  They are threaded through as an
explicit read-only value. -/
structure GardenLinuxAssets where
  scriptLocation : String
  scriptPermissions : Int
  scriptContentInPlaceUpdate : String
  scriptContentGFunctions : String
  scriptContentKubeletCGroupDriver : String
  scriptContentContainerdCGroupDriver : String

/-- Modelled from the spec: `filepath.Join` applied to the scripts
directory root and a bare file name; for a clean root this is
concatenation with a single separator. -/
def filepathJoin (dir name : String) : String := dir ++ "/" ++ name

/-- The external file/unit-to-disk render collaborators consumed by the
actuator: `operatingsystemconfig.FilesToDiskScript` (fallible, takes the
object namespace and the declared files) and
`operatingsystemconfig.UnitsToDiskScript` (infallible, takes the declared
units).  Both are opaque black boxes to the core. -/
structure Collaborators where
  filesToDiskScript : String → List File → Except GoError String
  unitsToDiskScript : List Unit → String

/-- The five return values of `actuator.Reconcile`/`actuator.Restore`:
user-data bytes, extension units, extension files, in-place-update
config, error.  `userData = some s` models a non-nil byte slice. -/
structure ReconcileResult where
  userData : Option String
  extensionUnits : List Unit
  extensionFiles : List File
  inPlaceUpdateConfig : Option InPlaceUpdateConfig
  err : Option GoError
deriving DecidableEq, Repr

/-- The fixed shell preamble of the provisioning script (source lines
74–87): idempotent containerd config seeding and the containerd exec
drop-in, up to and including the trailing newline before the rendered
file fragment is appended. -/
def provisionScriptHeader : String :=
  "#!/bin/bash\nif [ ! -s /etc/containerd/config.toml ]; then\n  mkdir -p /etc/containerd/\n  containerd config default > /etc/containerd/config.toml\n  chmod 0644 /etc/containerd/config.toml\nfi\n\nmkdir -p /etc/systemd/system/containerd.service.d\ncat <<EOF > /etc/systemd/system/containerd.service.d/11-exec_config.conf\n[Service]\nExecStart=\nExecStart=/usr/bin/containerd --config=/etc/containerd/config.toml\nEOF\nchmod 0644 /etc/systemd/system/containerd.service.d/11-exec_config.conf\n"

/-- The fixed shell text between the rendered unit fragment and the
per-unit enable/restart lines (source lines 89–97): nfsd module
enablement, network self-check, daemon reload, containerd and docker
enable+restart. -/
def provisionScriptMiddle : String :=
  "\ngrep -sq \"^nfsd$\" /etc/modules || echo \"nfsd\" >>/etc/modules\nmodprobe nfsd\nnslookup $(hostname) || systemctl restart systemd-networkd\n\nsystemctl daemon-reload\nsystemctl enable containerd && systemctl restart containerd\nsystemctl enable docker && systemctl restart docker\n"

/-- One per-unit enable/restart line of the provisioning script (source
lines 98–101): `fmt.Sprintf("systemctl enable '%s' && systemctl restart
--no-block '%s'\n", unit.Name, unit.Name)`. -/
def provisionUnitLine (unit : Unit) : String :=
  "systemctl enable \x27" ++ unit.name ++
    "\x27 && systemctl restart --no-block \x27" ++ unit.name ++ "\x27\n"

/-- The composed provisioning script (source lines 74–101): fixed
preamble, rendered file fragment, a newline, rendered unit fragment,
fixed middle section, then one enable/restart line per declared unit, in
input order, appended by the loop. -/
def composeProvisionScript (writeFilesToDiskScript writeUnitsToDiskScript : String)
    (units : List Unit) : String :=
  units.foldl (fun script unit => script ++ provisionUnitLine unit)
    (provisionScriptHeader ++ writeFilesToDiskScript ++ "\n" ++
      writeUnitsToDiskScript ++ provisionScriptMiddle)

/-- The envelope built by `wrapIntoMemoryOneHeaderAndFooter` once the
memory-variant configuration has been derived (source lines 116–134):
fixed MIME header, a `system_memory=`/`mem_topology=` line only when the
corresponding field is present, then the shell-script part holding the
wrapped script verbatim between boundary markers. -/
def memoryOneEnvelope (config : Option MemoryOneConfiguration) (input : String) : String :=
  let out := "Content-Type: multipart/mixed; boundary=\"==BOUNDARY==\"\nMIME-Version: 1.0\n--==BOUNDARY==\nContent-Type: text/x-vsmp; section=vsmp"
  let out := match config with
    | some c =>
      match c.systemMemory with
      | some sm => out ++ "\nsystem_memory=" ++ sm
      | none => out
    | none => out
  let out := match config with
    | some c =>
      match c.memoryTopology with
      | some mt => out ++ "\nmem_topology=" ++ mt
      | none => out
    | none => out
  out ++ "\n--==BOUNDARY==\nContent-Type: text/x-shellscript\n" ++
    input ++ "\n--==BOUNDARY=="

/-- `wrapIntoMemoryOneHeaderAndFooter` (source lines 110–137): derives the
memory-variant configuration (propagating its error) and builds the MIME
multipart envelope around the given script. -/
def wrapIntoMemoryOneHeaderAndFooter (osc : OperatingSystemConfig) (input : String) :
    Except GoError String :=
  match Configuration osc with
  | .error err => .error err
  | .ok config => .ok (memoryOneEnvelope config input)

/-- `actuator.handleProvisionOSC` (source lines 67–108): render the file
fragment (propagating its error), render the unit fragment, compose the
script, and wrap it into the memory-variant envelope when the OS type is
the memory-variant identifier. -/
def handleProvisionOSC (c : Collaborators) (osc : OperatingSystemConfig) :
    Except GoError String :=
  match c.filesToDiskScript osc.namespaceName osc.spec.files with
  | .error err => .error err
  | .ok writeFilesToDiskScript =>
    let writeUnitsToDiskScript := c.unitsToDiskScript osc.spec.units
    let script := composeProvisionScript writeFilesToDiskScript writeUnitsToDiskScript
      osc.spec.units
    if osc.spec.type = OSTypeMemoryOneGardenLinux then
      wrapIntoMemoryOneHeaderAndFooter osc script
    else
      .ok script

/-- `actuator.handleReconcileOSC` (source lines 159–220): emit the four
script files (in-place-update, helper, kubelet cgroup driver, containerd
cgroup driver), the in-place-update config, and the kubelet/containerd
units with their cgroup-driver drop-ins; never fails. -/
def handleReconcileOSC (A : GardenLinuxAssets) (osConfig : OperatingSystemConfig) :
    List Unit × List File × Option InPlaceUpdateConfig × Option GoError :=
  let filePathOSUpdateScript := filepathJoin A.scriptLocation "inplace-update.sh"
  let filePathFunctionsHelperScript := filepathJoin A.scriptLocation "g_functions.sh"
  let filePathKubeletCGroupDriverScript :=
    filepathJoin A.scriptLocation "kubelet_cgroup_driver.sh"
  let filePathContainerdCGroupDriverScript :=
    filepathJoin A.scriptLocation "containerd_cgroup_driver.sh"
  let extensionFiles : List File :=
    [⟨filePathOSUpdateScript, ⟨some ⟨A.scriptContentInPlaceUpdate⟩⟩, some A.scriptPermissions⟩,
     ⟨filePathFunctionsHelperScript, ⟨some ⟨A.scriptContentGFunctions⟩⟩, some A.scriptPermissions⟩,
     ⟨filePathKubeletCGroupDriverScript, ⟨some ⟨A.scriptContentKubeletCGroupDriver⟩⟩,
       some A.scriptPermissions⟩,
     ⟨filePathContainerdCGroupDriverScript, ⟨some ⟨A.scriptContentContainerdCGroupDriver⟩⟩,
       some A.scriptPermissions⟩]
  let inPlaceUpdateConfig : InPlaceUpdateConfig :=
    ⟨some filePathOSUpdateScript, [osConfig.spec.osVersion.getD ""]⟩
  let extensionUnits : List Unit :=
    [⟨"kubelet.service",
      [⟨"10-configure-cgroup-driver.conf",
        "[Service]\nExecStartPre=" ++ filePathKubeletCGroupDriverScript ++ "\n"⟩],
      [filePathFunctionsHelperScript, filePathKubeletCGroupDriverScript]⟩,
     ⟨"containerd.service",
      [⟨"10-configure-cgroup-driver.conf",
        "[Service]\nExecStartPre=" ++ filePathContainerdCGroupDriverScript ++ "\n"⟩],
      [filePathFunctionsHelperScript, filePathContainerdCGroupDriverScript]⟩]
  (extensionUnits, extensionFiles, some inPlaceUpdateConfig, none)

/-- `actuator.Reconcile` (source lines 36–49): the purpose switch.
Provision delegates to `handleProvisionOSC` (returning the script bytes,
empty for an error); Reconcile delegates to `handleReconcileOSC`; any
other purpose fails with the `unknown purpose` error and nil outputs. -/
def Reconcile (c : Collaborators) (A : GardenLinuxAssets)
    (osc : OperatingSystemConfig) : ReconcileResult :=
  if osc.spec.purpose = OperatingSystemConfigPurposeProvision then
    match handleProvisionOSC c osc with
    | .ok userData => ⟨some userData, [], [], none, none⟩
    | .error err => ⟨some "", [], [], none, some err⟩
  else if osc.spec.purpose = OperatingSystemConfigPurposeReconcile then
    let r := handleReconcileOSC A osc
    ⟨none, r.1, r.2.1, r.2.2.1, r.2.2.2⟩
  else
    ⟨none, [], [], none, some ("unknown purpose: " ++ osc.spec.purpose)⟩

/-- `actuator.Delete` (source lines 51–53): unconditional nil error. -/
def Delete (_osc : OperatingSystemConfig) : Option GoError := none

/-- `actuator.Migrate` (source lines 55–57): delegates to `Delete`. -/
def Migrate (osc : OperatingSystemConfig) : Option GoError := Delete osc

/-- `actuator.ForceDelete` (source lines 59–61): delegates to `Delete`. -/
def ForceDelete (osc : OperatingSystemConfig) : Option GoError := Delete osc

/-- `actuator.Restore` (source lines 63–65): delegates to `Reconcile`
with the same arguments. -/
def Restore (c : Collaborators) (A : GardenLinuxAssets)
    (osc : OperatingSystemConfig) : ReconcileResult :=
  Reconcile c A osc

/-! ### Concrete fixtures used by witnesses and counterexamples -/

/-- A render collaborator pair that always succeeds with empty fragments. -/
def okCollaborators : Collaborators :=
  ⟨fun _ _ => Except.ok "", fun _ => ""⟩

/-- A render collaborator pair whose file renderer fails. -/
def failCollaborators : Collaborators :=
  ⟨fun _ _ => Except.error "render failed", fun _ => ""⟩

/-- A sample immutable asset store. -/
def sampleAssets : GardenLinuxAssets :=
  ⟨"/sr", 484, "IU", "GF", "KC", "CC"⟩

/-- A request with an unrecognized purpose. -/
def oscUnknown : OperatingSystemConfig :=
  ⟨"ns", ⟨"gardenlinux", "delete", none, [], [], Except.ok none⟩⟩

/-- A reconcile-purpose request with a set OS version. -/
def oscReconcile : OperatingSystemConfig :=
  ⟨"ns", ⟨"gardenlinux", "reconcile", some "1312.0", [], [], Except.ok none⟩⟩

/-- A reconcile-purpose request agreeing with `oscReconcile` on the OS
version but differing in namespace, type, files, and units. -/
def oscReconcileVariant : OperatingSystemConfig :=
  ⟨"other", ⟨"memoryone-gardenlinux", "reconcile", some "1312.0",
    [⟨"/p", ⟨none⟩, none⟩], [⟨"foo.service", [], []⟩],
    Except.ok (some ⟨some "4G", none⟩)⟩⟩

/-- A provision-purpose request on a non-memory OS type declaring one
unit named `foo.service`. -/
def oscProvisionUnits : OperatingSystemConfig :=
  ⟨"ns", ⟨"gardenlinux", "provision", none, [], [⟨"foo.service", [], []⟩],
    Except.ok none⟩⟩

/-- A provision-purpose request on a non-memory OS type declaring one
unit whose name is the MIME boundary marker itself. -/
def oscProvisionBoundary : OperatingSystemConfig :=
  ⟨"ns", ⟨"gardenlinux", "provision", none, [], [⟨"--==BOUNDARY==", [], []⟩],
    Except.ok none⟩⟩

/-- A render collaborator pair whose file renderer succeeds with a
fragment that itself contains a `system_memory=` line. -/
def injectCollaborators : Collaborators :=
  ⟨fun _ _ => Except.ok "system_memory=4G", fun _ => ""⟩

/-- A provision-purpose memory-variant request whose derived configuration
has both fields absent. -/
def oscMemoryInjection : OperatingSystemConfig :=
  ⟨"ns", ⟨"memoryone-gardenlinux", "provision", none, [], [],
    Except.ok (some ⟨none, none⟩)⟩⟩

/-- A memory-variant configuration with `systemMemory` set to `4G` and
`memoryTopology` absent. -/
def sampleMemCfg : Option MemoryOneConfiguration := some ⟨some "4G", none⟩

/-- A provision-purpose memory-variant request whose derived configuration
is `sampleMemCfg`. -/
def oscMemoryWitness : OperatingSystemConfig :=
  ⟨"ns", ⟨"memoryone-gardenlinux", "provision", none, [], [],
    Except.ok sampleMemCfg⟩⟩

/-- A provision-purpose memory-variant request whose provider
configuration is malformed. -/
def oscProvisionMemoryBad : OperatingSystemConfig :=
  ⟨"ns", ⟨"memoryone-gardenlinux", "provision", none, [], [],
    Except.error "memory configuration malformed"⟩⟩

/-! ### Shared helper lemmas -/

/-- For a reconcile-purpose request the dispatcher returns exactly the
artifact set built by `handleReconcileOSC`, written out explicitly. -/
theorem reconcile_eq_of_purpose_reconcile (c : Collaborators) (A : GardenLinuxAssets)
    (osc : OperatingSystemConfig)
    (h : osc.spec.purpose = OperatingSystemConfigPurposeReconcile) :
    Reconcile c A osc =
      ⟨none,
       [⟨"kubelet.service",
         [⟨"10-configure-cgroup-driver.conf",
           "[Service]\nExecStartPre=" ++
             filepathJoin A.scriptLocation "kubelet_cgroup_driver.sh" ++ "\n"⟩],
         [filepathJoin A.scriptLocation "g_functions.sh",
          filepathJoin A.scriptLocation "kubelet_cgroup_driver.sh"]⟩,
        ⟨"containerd.service",
         [⟨"10-configure-cgroup-driver.conf",
           "[Service]\nExecStartPre=" ++
             filepathJoin A.scriptLocation "containerd_cgroup_driver.sh" ++ "\n"⟩],
         [filepathJoin A.scriptLocation "g_functions.sh",
          filepathJoin A.scriptLocation "containerd_cgroup_driver.sh"]⟩],
       [⟨filepathJoin A.scriptLocation "inplace-update.sh",
         ⟨some ⟨A.scriptContentInPlaceUpdate⟩⟩, some A.scriptPermissions⟩,
        ⟨filepathJoin A.scriptLocation "g_functions.sh",
         ⟨some ⟨A.scriptContentGFunctions⟩⟩, some A.scriptPermissions⟩,
        ⟨filepathJoin A.scriptLocation "kubelet_cgroup_driver.sh",
         ⟨some ⟨A.scriptContentKubeletCGroupDriver⟩⟩, some A.scriptPermissions⟩,
        ⟨filepathJoin A.scriptLocation "containerd_cgroup_driver.sh",
         ⟨some ⟨A.scriptContentContainerdCGroupDriver⟩⟩, some A.scriptPermissions⟩],
       some ⟨some (filepathJoin A.scriptLocation "inplace-update.sh"),
         [osc.spec.osVersion.getD ""]⟩,
       none⟩ := by
  unfold Reconcile
  rw [h]
  rfl

/-- The provisioning script equals the unit-free composition followed by
the per-unit enable/restart lines concatenated in input order. -/
theorem foldl_unitLine_eq (units : List Unit) (init : String) :
    units.foldl (fun script unit => script ++ provisionUnitLine unit) init =
      init ++ (units.map provisionUnitLine).foldr (· ++ ·) "" := by
  induction units generalizing init with
  | nil => simp
  | cons x xs ih =>
    simp only [List.foldl_cons, List.map_cons, List.foldr_cons]
    rw [ih, String.append_assoc]

/-- `composeProvisionScript` splits into its fixed-plus-fragments part and
the concatenated per-unit lines. -/
theorem composeProvisionScript_append (f u : String) (units : List Unit) :
    composeProvisionScript f u units =
      composeProvisionScript f u [] ++
        (units.map provisionUnitLine).foldr (· ++ ·) "" := by
  unfold composeProvisionScript
  simp only [List.foldl_nil]
  exact foldl_unitLine_eq units _

/-- For a provision-purpose request on a non-memory OS type with a
successful file render, the dispatcher returns exactly the composed
script and nothing else. -/
theorem reconcile_provision_plain (c : Collaborators) (A : GardenLinuxAssets)
    (osc : OperatingSystemConfig) (f : String)
    (hp : osc.spec.purpose = OperatingSystemConfigPurposeProvision)
    (ht : osc.spec.type ≠ OSTypeMemoryOneGardenLinux)
    (hf : c.filesToDiskScript osc.namespaceName osc.spec.files = Except.ok f) :
    Reconcile c A osc =
      ⟨some (composeProvisionScript f (c.unitsToDiskScript osc.spec.units) osc.spec.units),
       [], [], none, none⟩ := by
  have h1 : handleProvisionOSC c osc =
      Except.ok (composeProvisionScript f (c.unitsToDiskScript osc.spec.units)
        osc.spec.units) := by
    unfold handleProvisionOSC
    rw [hf]
    simp only [if_neg ht]
  unfold Reconcile
  rw [hp, if_pos rfl, h1]

/-- For a provision-purpose request on the memory-variant OS type with a
successful file render and a derivable configuration, the dispatcher
returns exactly the envelope around the composed script. -/
theorem reconcile_provision_memory (c : Collaborators) (A : GardenLinuxAssets)
    (osc : OperatingSystemConfig) (f : String) (cfg : Option MemoryOneConfiguration)
    (hp : osc.spec.purpose = OperatingSystemConfigPurposeProvision)
    (ht : osc.spec.type = OSTypeMemoryOneGardenLinux)
    (hf : c.filesToDiskScript osc.namespaceName osc.spec.files = Except.ok f)
    (hc : Configuration osc = Except.ok cfg) :
    Reconcile c A osc =
      ⟨some (memoryOneEnvelope cfg
        (composeProvisionScript f (c.unitsToDiskScript osc.spec.units) osc.spec.units)),
       [], [], none, none⟩ := by
  have h1 : handleProvisionOSC c osc =
      Except.ok (memoryOneEnvelope cfg
        (composeProvisionScript f (c.unitsToDiskScript osc.spec.units)
          osc.spec.units)) := by
    unfold handleProvisionOSC
    rw [hf]
    simp only [ht, if_true, eq_self_iff_true, if_pos]
    unfold wrapIntoMemoryOneHeaderAndFooter
    rw [hc]
  unfold Reconcile
  rw [hp, if_pos rfl, h1]

/-! ### List toolkit: splitting prefixes and infixes over appends -/

/-- A prefix of `a ++ b` is a prefix of `a` or extends all of `a` by a
prefix of `b`. -/
theorem prefix_append_split {α : Type} {m a b : List α} (h : m <+: a ++ b) :
    m <+: a ∨ ∃ m2, m = a ++ m2 ∧ m2 <+: b := by
  induction a generalizing m with
  | nil => exact Or.inr ⟨m, rfl, by simpa using h⟩
  | cons x xs ih =>
    cases m with
    | nil => exact Or.inl List.nil_prefix
    | cons y ys =>
      rw [List.cons_append, List.cons_prefix_cons] at h
      obtain ⟨rfl, h2⟩ := h
      rcases ih h2 with h3 | ⟨m2, rfl, h4⟩
      · exact Or.inl (List.cons_prefix_cons.mpr ⟨rfl, h3⟩)
      · exact Or.inr ⟨m2, by simp, h4⟩

/-- An infix of `a ++ b` is an infix of `a`, an infix of `b`, or straddles
the junction: a nonempty suffix of `a` followed by a nonempty prefix of
`b`. -/
theorem infix_append_split {α : Type} {m a b : List α} (h : m <:+: a ++ b) :
    m <:+: a ∨ m <:+: b ∨
      ∃ m1 m2, m1 ++ m2 = m ∧ m1 ≠ [] ∧ m2 ≠ [] ∧ m1 <:+ a ∧ m2 <+: b := by
  induction a generalizing m with
  | nil => exact Or.inr (Or.inl (by rw [List.nil_append] at h; exact h))
  | cons x xs ih =>
    rw [List.cons_append, List.infix_cons_iff] at h
    rcases h with h | h
    · cases m with
      | nil => exact Or.inl List.nil_infix
      | cons y ys =>
        rw [List.cons_prefix_cons] at h
        obtain ⟨rfl, h2⟩ := h
        rcases prefix_append_split h2 with h3 | ⟨m2, rfl, h4⟩
        · exact Or.inl (List.cons_prefix_cons.mpr ⟨rfl, h3⟩).isInfix
        · by_cases hm2 : m2 = []
          · subst hm2
            exact Or.inl (by simp)
          · exact Or.inr (Or.inr ⟨y :: xs, m2, by simp, by simp, hm2,
              List.suffix_refl _, h4⟩)
    · rcases ih h with h3 | h3 | ⟨m1, m2, hm, hm1, hm2, hsuf, hpre⟩
      · exact Or.inl (List.infix_cons h3)
      · exact Or.inr (Or.inl h3)
      · exact Or.inr (Or.inr ⟨m1, m2, hm, hm1, hm2, hsuf.trans (List.suffix_cons x xs),
          hpre⟩)

/-- No straddling occurrence can exist when the last element of `a` does
not occur in `m`: then `m` is not an infix of `a ++ b` whenever it is an
infix of neither part. -/
theorem not_infix_append_of_getLast {α : Type} {m a b : List α} {c : α}
    (ha : ¬ m <:+: a) (hb : ¬ m <:+: b) (hl : a.getLast? = some c) (hc : c ∉ m) :
    ¬ m <:+: a ++ b := by
  intro h
  rcases infix_append_split h with h1 | h1 | ⟨m1, m2, hm, hm1, _, hsuf, _⟩
  · exact ha h1
  · exact hb h1
  · obtain ⟨p, hp⟩ := hsuf
    have h2 : (p ++ m1).getLast? = some c := by rw [hp]; exact hl
    rw [List.getLast?_append_of_ne_nil p hm1] at h2
    have h3 : c ∈ m1 := List.mem_of_getLast?_eq_some h2
    exact hc (hm ▸ List.mem_append_left m2 h3)

/-- No straddling occurrence can exist when the first element of `b` does
not occur in `m`: then `m` is not an infix of `a ++ b` whenever it is an
infix of neither part. -/
theorem not_infix_append_of_head {α : Type} {m a b : List α} {c : α}
    (ha : ¬ m <:+: a) (hb : ¬ m <:+: b) (hh : b.head? = some c) (hc : c ∉ m) :
    ¬ m <:+: a ++ b := by
  intro h
  rcases infix_append_split h with h1 | h1 | ⟨m1, m2, hm, _, hm2, _, hpre⟩
  · exact ha h1
  · exact hb h1
  · obtain ⟨t, ht⟩ := hpre
    have h2 : (m2 ++ t).head? = some c := by rw [ht]; exact hh
    rw [List.head?_append_of_ne_nil m2 hm2] at h2
    obtain ⟨ys, hys⟩ := List.head?_eq_some_iff.mp h2
    have h3 : c ∈ m2 := by rw [hys]; exact List.mem_cons_self c ys
    exact hc (hm ▸ List.mem_append_right m1 h3)

/-! ### The MIME boundary marker and marker-freedom of composed scripts -/

/-- The MIME boundary marker line text `--==BOUNDARY==` as characters. -/
def boundaryMarker : List Char := "--==BOUNDARY==".data

/-- A per-unit enable/restart line contains no boundary marker when the
unit name contains none: the marker holds neither an apostrophe nor a
newline, so no occurrence can straddle the quoted interpolations. -/
theorem unitLine_no_marker (unit : Unit)
    (hn : ¬ boundaryMarker <:+: unit.name.data) :
    ¬ boundaryMarker <:+: (provisionUnitLine unit).data := by
  unfold provisionUnitLine
  simp only [String.data_append, List.append_assoc]
  apply not_infix_append_of_getLast (c := '\x27')
  · decide
  · apply not_infix_append_of_head (c := '\x27')
    · exact hn
    · apply not_infix_append_of_getLast (c := '\x27')
      · decide
      · apply not_infix_append_of_head (c := '\x27')
        · exact hn
        · decide
        · decide
        · decide
      · decide
      · decide
    · rw [List.head?_append_of_ne_nil _ (by decide)]
      decide
    · decide
  · decide
  · decide

/-- The concatenated per-unit lines contain no boundary marker when no
declared unit name contains one. -/
theorem unitLines_no_marker (units : List Unit)
    (hn : ∀ unit ∈ units, ¬ boundaryMarker <:+: unit.name.data) :
    ¬ boundaryMarker <:+:
      ((units.map provisionUnitLine).foldr (· ++ ·) "").data := by
  induction units with
  | nil => decide
  | cons x xs ih =>
    simp only [List.map_cons, List.foldr_cons, String.data_append]
    apply not_infix_append_of_getLast (c := '\n')
    · exact unitLine_no_marker x (hn x (List.mem_cons_self x xs))
    · exact ih fun u hu => hn u (List.mem_cons_of_mem x hu)
    · unfold provisionUnitLine
      simp only [String.data_append]
      rw [List.getLast?_append_of_ne_nil _ (by decide)]
      decide
    · decide

/-- The composed provisioning script contains no boundary marker when the
rendered fragments and the declared unit names contain none: every chunk
junction is blocked by a newline or an apostrophe, neither of which
occurs in the marker. -/
theorem composeProvisionScript_no_marker (f u : String) (units : List Unit)
    (hf : ¬ boundaryMarker <:+: f.data)
    (hu : ¬ boundaryMarker <:+: u.data)
    (hn : ∀ unit ∈ units, ¬ boundaryMarker <:+: unit.name.data) :
    ¬ boundaryMarker <:+: (composeProvisionScript f u units).data := by
  rw [composeProvisionScript_append]
  unfold composeProvisionScript
  simp only [List.foldl_nil, String.data_append, List.append_assoc]
  apply not_infix_append_of_getLast (c := '\n')
  · decide
  · apply not_infix_append_of_head (c := '\n')
    · exact hf
    · apply not_infix_append_of_getLast (c := '\n')
      · decide
      · apply not_infix_append_of_head (c := '\n')
        · exact hu
        · apply not_infix_append_of_getLast (c := '\n')
          · decide
          · exact unitLines_no_marker units hn
          · decide
          · decide
        · rw [List.head?_append_of_ne_nil _ (by decide)]
          decide
        · decide
      · decide
      · decide
    · rfl
    · decide
  · decide
  · decide

/-- Every memory-variant envelope splits into the fixed MIME header, a
middle part holding the optional key/value lines, and the shell-script
part carrying the wrapped script verbatim between boundary markers. -/
theorem memoryOneEnvelope_decomp (cfg : Option MemoryOneConfiguration) (input : String) :
    ∃ mid : String,
      memoryOneEnvelope cfg input =
        ("Content-Type: multipart/mixed; boundary=\"==BOUNDARY==\"\nMIME-Version: 1.0\n--==BOUNDARY==\nContent-Type: text/x-vsmp; section=vsmp" ++ mid) ++
          ("\n--==BOUNDARY==\nContent-Type: text/x-shellscript\n" ++ input ++
            "\n--==BOUNDARY==") := by
  match cfg with
  | none =>
    refine ⟨"", ?_⟩
    simp only [memoryOneEnvelope]
    rfl
  | some c =>
    match hsm : c.systemMemory, hmt : c.memoryTopology with
    | none, none =>
      refine ⟨"", ?_⟩
      simp only [memoryOneEnvelope, hsm, hmt]
      rfl
    | some sm, none =>
      refine ⟨"\nsystem_memory=" ++ sm, ?_⟩
      simp only [memoryOneEnvelope, hsm, hmt]
      apply String.ext
      simp [List.append_assoc]
    | none, some mt =>
      refine ⟨"\nmem_topology=" ++ mt, ?_⟩
      simp only [memoryOneEnvelope, hsm, hmt]
      apply String.ext
      simp [List.append_assoc]
    | some sm, some mt =>
      refine ⟨"\nsystem_memory=" ++ sm ++ "\nmem_topology=" ++ mt, ?_⟩
      simp only [memoryOneEnvelope, hsm, hmt]
      apply String.ext
      simp [List.append_assoc]

/-! ### Line splitting: viewing a character sequence as its lines -/

/-- The lines of a character sequence, split at every newline: the
trailing (possibly empty) partial line is always included, so the result
is never empty. -/
def allLines : List Char → List (List Char)
  | [] => [[]]
  | c :: rest =>
    if c = '\n' then [] :: allLines rest
    else
      match allLines rest with
      | [] => [[c]]
      | h :: t => (c :: h) :: t

/-- A character sequence always has at least one (possibly empty) line. -/
theorem allLines_ne_nil (s : List Char) : allLines s ≠ [] := by
  induction s with
  | nil => simp [allLines]
  | cons c rest ih =>
    by_cases hc : c = '\n'
    · simp [allLines, hc]
    · simp only [allLines, if_neg hc]
      cases h : allLines rest with
      | nil => simp
      | cons a t => simp

/-- Unfolding: a leading newline contributes an empty line. -/
theorem allLines_cons_nl (s : List Char) : allLines ('\n' :: s) = [] :: allLines s := by
  conv_lhs => unfold allLines
  rw [if_pos rfl]

/-- Unfolding: a leading non-newline character extends the first line. -/
theorem allLines_cons_ne (c : Char) (s : List Char) (hc : ¬ c = '\n')
    (h : List Char) (t : List (List Char)) (hs : allLines s = h :: t) :
    allLines (c :: s) = (c :: h) :: t := by
  unfold allLines
  rw [if_neg hc, hs]

/-- A newline-free character sequence is its own single line. -/
theorem allLines_nosplit (x : List Char) (hx : '\n' ∉ x) : allLines x = [x] := by
  induction x with
  | nil => rfl
  | cons c rest ih =>
    have hc : ¬ c = '\n' := fun h => hx (List.mem_cons.mpr (Or.inl h.symm))
    have hrest : '\n' ∉ rest := fun h => hx (List.mem_cons_of_mem c h)
    exact allLines_cons_ne c rest hc rest [] (ih hrest)

/-- Peeling one newline-terminated line off the front of a sequence. -/
theorem allLines_peel (x s : List Char) (hx : '\n' ∉ x) :
    allLines (x ++ '\n' :: s) = x :: allLines s := by
  induction x with
  | nil =>
    rw [List.nil_append]
    exact allLines_cons_nl s
  | cons c rest ih =>
    have hc : ¬ c = '\n' := fun h => hx (List.mem_cons.mpr (Or.inl h.symm))
    have hrest : '\n' ∉ rest := fun h => hx (List.mem_cons_of_mem c h)
    rw [List.cons_append]
    exact allLines_cons_ne c _ hc rest (allLines s) (ih hrest)

/-- Appending a final newline-free line after a newline adds exactly that
line to the line list. -/
theorem allLines_terminate (s r : List Char) (hr : '\n' ∉ r) :
    allLines (s ++ '\n' :: r) = allLines s ++ [r] := by
  induction s with
  | nil =>
    rw [List.nil_append, allLines_cons_nl, allLines_nosplit r hr]
    rfl
  | cons c rest ih =>
    by_cases hc : c = '\n'
    · subst hc
      rw [List.cons_append, allLines_cons_nl, allLines_cons_nl, ih, List.cons_append]
    · cases h : allLines rest with
      | nil => exact absurd h (allLines_ne_nil rest)
      | cons a t =>
        have h2 : allLines (rest ++ '\n' :: r) = a :: (t ++ [r]) := by
          rw [ih, h, List.cons_append]
        rw [List.cons_append, allLines_cons_ne c _ hc a (t ++ [r]) h2,
          allLines_cons_ne c rest hc a t h, List.cons_append]

/-- The `system_memory=` key as characters. -/
def sysKey : List Char := "system_memory=".data

/-- The `mem_topology=` key as characters. -/
def topoKey : List Char := "mem_topology=".data

/-- Whether a line starts with the `system_memory=` key. -/
def sysP (l : List Char) : Bool := sysKey.isPrefixOf l

/-- Whether a line starts with the `mem_topology=` key. -/
def topoP (l : List Char) : Bool := topoKey.isPrefixOf l

/-- A line formed by the `system_memory=` key starts with it. -/
theorem sysP_sys_append (x : List Char) : sysP (sysKey ++ x) = true := by
  unfold sysP
  exact List.isPrefixOf_iff_prefix.mpr (List.prefix_append _ _)

/-- A `mem_topology=` line does not start with `system_memory=`. -/
theorem sysP_topo_append (x : List Char) : sysP (topoKey ++ x) = false := rfl

/-- A `system_memory=` line does not start with `mem_topology=`. -/
theorem topoP_sys_append (x : List Char) : topoP (sysKey ++ x) = false := rfl

/-- A line formed by the `mem_topology=` key starts with it. -/
theorem topoP_topo_append (x : List Char) : topoP (topoKey ++ x) = true := by
  unfold topoP
  exact List.isPrefixOf_iff_prefix.mpr (List.prefix_append _ _)

/-- The header and trailer lines of the envelope do not start with the
`system_memory=` key. -/
theorem sysP_line₁ :
    sysP "Content-Type: multipart/mixed; boundary=\"==BOUNDARY==\"".data = false := rfl

theorem sysP_line₂ : sysP "MIME-Version: 1.0".data = false := rfl

theorem sysP_line₃ : sysP "--==BOUNDARY==".data = false := rfl

theorem sysP_line₄ : sysP "Content-Type: text/x-vsmp; section=vsmp".data = false := rfl

theorem sysP_line₆ : sysP "Content-Type: text/x-shellscript".data = false := rfl

/-- The header and trailer lines of the envelope do not start with the
`mem_topology=` key. -/
theorem topoP_line₁ :
    topoP "Content-Type: multipart/mixed; boundary=\"==BOUNDARY==\"".data = false := rfl

theorem topoP_line₂ : topoP "MIME-Version: 1.0".data = false := rfl

theorem topoP_line₃ : topoP "--==BOUNDARY==".data = false := rfl

theorem topoP_line₄ : topoP "Content-Type: text/x-vsmp; section=vsmp".data = false := rfl

theorem topoP_line₆ : topoP "Content-Type: text/x-shellscript".data = false := rfl

/-- The lines of the envelope when no configuration was supplied: the four
fixed header lines, then the boundary and shell-script content-type
lines, the lines of the wrapped script, and the final boundary line. -/
theorem memoryOneEnvelope_lines_none (input : String) :
    allLines (memoryOneEnvelope none input).data =
      ["Content-Type: multipart/mixed; boundary=\"==BOUNDARY==\"".data,
       "MIME-Version: 1.0".data,
       "--==BOUNDARY==".data,
       "Content-Type: text/x-vsmp; section=vsmp".data,
       "--==BOUNDARY==".data,
       "Content-Type: text/x-shellscript".data] ++
        (allLines input.data ++ ["--==BOUNDARY==".data]) := by
  have hshape : (memoryOneEnvelope none input).data =
      "Content-Type: multipart/mixed; boundary=\"==BOUNDARY==\"".data ++ '\n' ::
        ("MIME-Version: 1.0".data ++ '\n' ::
          ("--==BOUNDARY==".data ++ '\n' ::
            ("Content-Type: text/x-vsmp; section=vsmp".data ++ '\n' ::
              ("--==BOUNDARY==".data ++ '\n' ::
                ("Content-Type: text/x-shellscript".data ++ '\n' ::
                  (input.data ++ '\n' :: "--==BOUNDARY==".data)))))) := rfl
  rw [hshape]
  rw [allLines_peel _ _ (by decide), allLines_peel _ _ (by decide),
    allLines_peel _ _ (by decide), allLines_peel _ _ (by decide),
    allLines_peel _ _ (by decide), allLines_peel _ _ (by decide),
    allLines_terminate _ _ (by decide)]
  simp

/-- The lines of the envelope when the configuration is present but both
fields are absent: identical to the no-configuration case. -/
theorem envLines_nonecfg (input : String) :
    allLines (memoryOneEnvelope (some ⟨none, none⟩) input).data =
      ["Content-Type: multipart/mixed; boundary=\"==BOUNDARY==\"".data,
       "MIME-Version: 1.0".data,
       "--==BOUNDARY==".data,
       "Content-Type: text/x-vsmp; section=vsmp".data,
       "--==BOUNDARY==".data,
       "Content-Type: text/x-shellscript".data] ++
        (allLines input.data ++ ["--==BOUNDARY==".data]) := by
  have hshape : (memoryOneEnvelope (some ⟨none, none⟩) input).data =
      "Content-Type: multipart/mixed; boundary=\"==BOUNDARY==\"".data ++ '\n' ::
        ("MIME-Version: 1.0".data ++ '\n' ::
          ("--==BOUNDARY==".data ++ '\n' ::
            ("Content-Type: text/x-vsmp; section=vsmp".data ++ '\n' ::
              ("--==BOUNDARY==".data ++ '\n' ::
                ("Content-Type: text/x-shellscript".data ++ '\n' ::
                  (input.data ++ '\n' :: "--==BOUNDARY==".data)))))) := rfl
  rw [hshape]
  rw [allLines_peel _ _ (by decide), allLines_peel _ _ (by decide),
    allLines_peel _ _ (by decide), allLines_peel _ _ (by decide),
    allLines_peel _ _ (by decide), allLines_peel _ _ (by decide),
    allLines_terminate _ _ (by decide)]
  simp

/-- The lines of the envelope when only `systemMemory` is present: one
`system_memory=` line carrying the exact value sits between the header
lines and the shell-script part. -/
theorem envLines_sm (sm : String) (input : String) (hsm : '\n' ∉ sm.data) :
    allLines (memoryOneEnvelope (some ⟨some sm, none⟩) input).data =
      ["Content-Type: multipart/mixed; boundary=\"==BOUNDARY==\"".data,
       "MIME-Version: 1.0".data,
       "--==BOUNDARY==".data,
       "Content-Type: text/x-vsmp; section=vsmp".data] ++
      ([sysKey ++ sm.data] ++
        (["--==BOUNDARY==".data, "Content-Type: text/x-shellscript".data] ++
          (allLines input.data ++ ["--==BOUNDARY==".data]))) := by
  have hsml : '\n' ∉ sysKey ++ sm.data := by
    intro hmem
    rcases List.mem_append.mp hmem with h | h
    · exact absurd h (by decide)
    · exact hsm h
  have hshape : (memoryOneEnvelope (some ⟨some sm, none⟩) input).data =
      "Content-Type: multipart/mixed; boundary=\"==BOUNDARY==\"".data ++ '\n' ::
        ("MIME-Version: 1.0".data ++ '\n' ::
          ("--==BOUNDARY==".data ++ '\n' ::
            ("Content-Type: text/x-vsmp; section=vsmp".data ++ '\n' ::
              ((sysKey ++ sm.data) ++ '\n' ::
                ("--==BOUNDARY==".data ++ '\n' ::
                  ("Content-Type: text/x-shellscript".data ++ '\n' ::
                    (input.data ++ '\n' :: "--==BOUNDARY==".data))))))) := by
    simp only [memoryOneEnvelope, String.data_append, List.append_assoc]
    rfl
  rw [hshape]
  rw [allLines_peel _ _ (by decide), allLines_peel _ _ (by decide),
    allLines_peel _ _ (by decide), allLines_peel _ _ (by decide),
    allLines_peel _ _ hsml, allLines_peel _ _ (by decide),
    allLines_peel _ _ (by decide), allLines_terminate _ _ (by decide)]
  simp

/-- The lines of the envelope when only `memoryTopology` is present: one
`mem_topology=` line carrying the exact value sits between the header
lines and the shell-script part. -/
theorem envLines_mt (mt : String) (input : String) (hmt : '\n' ∉ mt.data) :
    allLines (memoryOneEnvelope (some ⟨none, some mt⟩) input).data =
      ["Content-Type: multipart/mixed; boundary=\"==BOUNDARY==\"".data,
       "MIME-Version: 1.0".data,
       "--==BOUNDARY==".data,
       "Content-Type: text/x-vsmp; section=vsmp".data] ++
      ([topoKey ++ mt.data] ++
        (["--==BOUNDARY==".data, "Content-Type: text/x-shellscript".data] ++
          (allLines input.data ++ ["--==BOUNDARY==".data]))) := by
  have hmtl : '\n' ∉ topoKey ++ mt.data := by
    intro hmem
    rcases List.mem_append.mp hmem with h | h
    · exact absurd h (by decide)
    · exact hmt h
  have hshape : (memoryOneEnvelope (some ⟨none, some mt⟩) input).data =
      "Content-Type: multipart/mixed; boundary=\"==BOUNDARY==\"".data ++ '\n' ::
        ("MIME-Version: 1.0".data ++ '\n' ::
          ("--==BOUNDARY==".data ++ '\n' ::
            ("Content-Type: text/x-vsmp; section=vsmp".data ++ '\n' ::
              ((topoKey ++ mt.data) ++ '\n' ::
                ("--==BOUNDARY==".data ++ '\n' ::
                  ("Content-Type: text/x-shellscript".data ++ '\n' ::
                    (input.data ++ '\n' :: "--==BOUNDARY==".data))))))) := by
    simp only [memoryOneEnvelope, String.data_append, List.append_assoc]
    rfl
  rw [hshape]
  rw [allLines_peel _ _ (by decide), allLines_peel _ _ (by decide),
    allLines_peel _ _ (by decide), allLines_peel _ _ (by decide),
    allLines_peel _ _ hmtl, allLines_peel _ _ (by decide),
    allLines_peel _ _ (by decide), allLines_terminate _ _ (by decide)]
  simp

/-- The lines of the envelope when both fields are present: the
`system_memory=` line precedes the `mem_topology=` line, each carrying
its exact value. -/
theorem envLines_smmt (sm mt : String) (input : String)
    (hsm : '\n' ∉ sm.data) (hmt : '\n' ∉ mt.data) :
    allLines (memoryOneEnvelope (some ⟨some sm, some mt⟩) input).data =
      ["Content-Type: multipart/mixed; boundary=\"==BOUNDARY==\"".data,
       "MIME-Version: 1.0".data,
       "--==BOUNDARY==".data,
       "Content-Type: text/x-vsmp; section=vsmp".data] ++
      ([sysKey ++ sm.data] ++
        ([topoKey ++ mt.data] ++
          (["--==BOUNDARY==".data, "Content-Type: text/x-shellscript".data] ++
            (allLines input.data ++ ["--==BOUNDARY==".data])))) := by
  have hsml : '\n' ∉ sysKey ++ sm.data := by
    intro hmem
    rcases List.mem_append.mp hmem with h | h
    · exact absurd h (by decide)
    · exact hsm h
  have hmtl : '\n' ∉ topoKey ++ mt.data := by
    intro hmem
    rcases List.mem_append.mp hmem with h | h
    · exact absurd h (by decide)
    · exact hmt h
  have hshape : (memoryOneEnvelope (some ⟨some sm, some mt⟩) input).data =
      "Content-Type: multipart/mixed; boundary=\"==BOUNDARY==\"".data ++ '\n' ::
        ("MIME-Version: 1.0".data ++ '\n' ::
          ("--==BOUNDARY==".data ++ '\n' ::
            ("Content-Type: text/x-vsmp; section=vsmp".data ++ '\n' ::
              ((sysKey ++ sm.data) ++ '\n' ::
                ((topoKey ++ mt.data) ++ '\n' ::
                  ("--==BOUNDARY==".data ++ '\n' ::
                    ("Content-Type: text/x-shellscript".data ++ '\n' ::
                      (input.data ++ '\n' :: "--==BOUNDARY==".data)))))))) := by
    simp only [memoryOneEnvelope, String.data_append, List.append_assoc]
    rfl
  rw [hshape]
  rw [allLines_peel _ _ (by decide), allLines_peel _ _ (by decide),
    allLines_peel _ _ (by decide), allLines_peel _ _ (by decide),
    allLines_peel _ _ hsml, allLines_peel _ _ hmtl,
    allLines_peel _ _ (by decide), allLines_peel _ _ (by decide),
    allLines_terminate _ _ (by decide)]
  simp

/-- Neither filter key matches any of the fixed envelope lines, and each
key matches exactly its own line. -/
theorem filter_sysP_fixed₆ :
    List.filter sysP
      ["Content-Type: multipart/mixed; boundary=\"==BOUNDARY==\"".data,
       "MIME-Version: 1.0".data,
       "--==BOUNDARY==".data,
       "Content-Type: text/x-vsmp; section=vsmp".data,
       "--==BOUNDARY==".data,
       "Content-Type: text/x-shellscript".data] = [] := rfl

theorem filter_sysP_fixed₄ :
    List.filter sysP
      ["Content-Type: multipart/mixed; boundary=\"==BOUNDARY==\"".data,
       "MIME-Version: 1.0".data,
       "--==BOUNDARY==".data,
       "Content-Type: text/x-vsmp; section=vsmp".data] = [] := rfl

theorem filter_sysP_tail₂ :
    List.filter sysP
      ["--==BOUNDARY==".data, "Content-Type: text/x-shellscript".data] = [] := rfl

theorem filter_sysP_last : List.filter sysP ["--==BOUNDARY==".data] = [] := rfl

theorem filter_sysP_sys (x : List Char) :
    List.filter sysP [sysKey ++ x] = [sysKey ++ x] := by
  rw [List.filter_cons, sysP_sys_append]
  rfl

theorem filter_sysP_topo (x : List Char) :
    List.filter sysP [topoKey ++ x] = [] := by
  rw [List.filter_cons, sysP_topo_append]
  rfl

theorem filter_topoP_fixed₆ :
    List.filter topoP
      ["Content-Type: multipart/mixed; boundary=\"==BOUNDARY==\"".data,
       "MIME-Version: 1.0".data,
       "--==BOUNDARY==".data,
       "Content-Type: text/x-vsmp; section=vsmp".data,
       "--==BOUNDARY==".data,
       "Content-Type: text/x-shellscript".data] = [] := rfl

theorem filter_topoP_fixed₄ :
    List.filter topoP
      ["Content-Type: multipart/mixed; boundary=\"==BOUNDARY==\"".data,
       "MIME-Version: 1.0".data,
       "--==BOUNDARY==".data,
       "Content-Type: text/x-vsmp; section=vsmp".data] = [] := rfl

theorem filter_topoP_tail₂ :
    List.filter topoP
      ["--==BOUNDARY==".data, "Content-Type: text/x-shellscript".data] = [] := rfl

theorem filter_topoP_last : List.filter topoP ["--==BOUNDARY==".data] = [] := rfl

theorem filter_topoP_topo (x : List Char) :
    List.filter topoP [topoKey ++ x] = [topoKey ++ x] := by
  rw [List.filter_cons, topoP_topo_append]
  rfl

theorem filter_topoP_sys (x : List Char) :
    List.filter topoP [sysKey ++ x] = [] := by
  rw [List.filter_cons, topoP_sys_append]
  rfl

/-! ### Claim theorems -/

/-- C1: for every request whose purpose is neither Provision nor
Reconcile, the dispatcher returns the `unknown purpose` error carrying
the offending purpose value, together with nil script bytes, an empty
unit list, an empty file list, and no in-place-update config. -/
theorem reconcile_unknown_purpose_fails (c : Collaborators) (A : GardenLinuxAssets)
    (osc : OperatingSystemConfig)
    (h1 : osc.spec.purpose ≠ OperatingSystemConfigPurposeProvision)
    (h2 : osc.spec.purpose ≠ OperatingSystemConfigPurposeReconcile) :
    Reconcile c A osc =
      ⟨none, [], [], none, some ("unknown purpose: " ++ osc.spec.purpose)⟩ := by
  unfold Reconcile
  rw [if_neg h1, if_neg h2]

/-- Witness for C1 at the concrete purpose `"delete"`. -/
theorem reconcile_unknown_purpose_fails_witness :
    Reconcile okCollaborators sampleAssets oscUnknown =
      ⟨none, [], [], none, some ("unknown purpose: " ++ oscUnknown.spec.purpose)⟩ :=
  reconcile_unknown_purpose_fails okCollaborators sampleAssets oscUnknown
    (by decide) (by decide)

/-- C2: for every reconcile-purpose request the dispatcher result is
exactly the four files (in-place-update script, helper script, kubelet
cgroup-driver script, containerd cgroup-driver script, in that order),
the two units `kubelet.service` then `containerd.service`, each with the
single drop-in `10-configure-cgroup-driver.conf`, and the in-place-update
config pointing at the fixed in-place-update script path with the OS
version (or `""` when unset) as its sole argument. -/
theorem reconcile_purpose_reconcile_exact (c : Collaborators) (A : GardenLinuxAssets)
    (osc : OperatingSystemConfig)
    (h : osc.spec.purpose = OperatingSystemConfigPurposeReconcile) :
    Reconcile c A osc =
      ⟨none,
       [⟨"kubelet.service",
         [⟨"10-configure-cgroup-driver.conf",
           "[Service]\nExecStartPre=" ++
             filepathJoin A.scriptLocation "kubelet_cgroup_driver.sh" ++ "\n"⟩],
         [filepathJoin A.scriptLocation "g_functions.sh",
          filepathJoin A.scriptLocation "kubelet_cgroup_driver.sh"]⟩,
        ⟨"containerd.service",
         [⟨"10-configure-cgroup-driver.conf",
           "[Service]\nExecStartPre=" ++
             filepathJoin A.scriptLocation "containerd_cgroup_driver.sh" ++ "\n"⟩],
         [filepathJoin A.scriptLocation "g_functions.sh",
          filepathJoin A.scriptLocation "containerd_cgroup_driver.sh"]⟩],
       [⟨filepathJoin A.scriptLocation "inplace-update.sh",
         ⟨some ⟨A.scriptContentInPlaceUpdate⟩⟩, some A.scriptPermissions⟩,
        ⟨filepathJoin A.scriptLocation "g_functions.sh",
         ⟨some ⟨A.scriptContentGFunctions⟩⟩, some A.scriptPermissions⟩,
        ⟨filepathJoin A.scriptLocation "kubelet_cgroup_driver.sh",
         ⟨some ⟨A.scriptContentKubeletCGroupDriver⟩⟩, some A.scriptPermissions⟩,
        ⟨filepathJoin A.scriptLocation "containerd_cgroup_driver.sh",
         ⟨some ⟨A.scriptContentContainerdCGroupDriver⟩⟩, some A.scriptPermissions⟩],
       some ⟨some (filepathJoin A.scriptLocation "inplace-update.sh"),
         [osc.spec.osVersion.getD ""]⟩,
       none⟩ :=
  reconcile_eq_of_purpose_reconcile c A osc h

/-- Witness for C2 at a concrete reconcile request with version 1312.0. -/
theorem reconcile_purpose_reconcile_exact_witness :
    Reconcile okCollaborators sampleAssets oscReconcile =
      ⟨none,
       [⟨"kubelet.service",
         [⟨"10-configure-cgroup-driver.conf",
           "[Service]\nExecStartPre=" ++
             filepathJoin sampleAssets.scriptLocation "kubelet_cgroup_driver.sh" ++ "\n"⟩],
         [filepathJoin sampleAssets.scriptLocation "g_functions.sh",
          filepathJoin sampleAssets.scriptLocation "kubelet_cgroup_driver.sh"]⟩,
        ⟨"containerd.service",
         [⟨"10-configure-cgroup-driver.conf",
           "[Service]\nExecStartPre=" ++
             filepathJoin sampleAssets.scriptLocation "containerd_cgroup_driver.sh" ++ "\n"⟩],
         [filepathJoin sampleAssets.scriptLocation "g_functions.sh",
          filepathJoin sampleAssets.scriptLocation "containerd_cgroup_driver.sh"]⟩],
       [⟨filepathJoin sampleAssets.scriptLocation "inplace-update.sh",
         ⟨some ⟨sampleAssets.scriptContentInPlaceUpdate⟩⟩, some sampleAssets.scriptPermissions⟩,
        ⟨filepathJoin sampleAssets.scriptLocation "g_functions.sh",
         ⟨some ⟨sampleAssets.scriptContentGFunctions⟩⟩, some sampleAssets.scriptPermissions⟩,
        ⟨filepathJoin sampleAssets.scriptLocation "kubelet_cgroup_driver.sh",
         ⟨some ⟨sampleAssets.scriptContentKubeletCGroupDriver⟩⟩, some sampleAssets.scriptPermissions⟩,
        ⟨filepathJoin sampleAssets.scriptLocation "containerd_cgroup_driver.sh",
         ⟨some ⟨sampleAssets.scriptContentContainerdCGroupDriver⟩⟩, some sampleAssets.scriptPermissions⟩],
       some ⟨some (filepathJoin sampleAssets.scriptLocation "inplace-update.sh"),
         [oscReconcile.spec.osVersion.getD ""]⟩,
       none⟩ :=
  reconcile_purpose_reconcile_exact okCollaborators sampleAssets oscReconcile rfl

/-- C3: for every reconcile-purpose request the result satisfies
referential integrity: the in-place-update command equals the path of
some emitted file, and every file path referenced by an emitted unit
equals the path of some emitted file. -/
theorem reconcile_referential_integrity (c : Collaborators) (A : GardenLinuxAssets)
    (osc : OperatingSystemConfig)
    (h : osc.spec.purpose = OperatingSystemConfigPurposeReconcile) :
    ∃ cfg cmd, (Reconcile c A osc).inPlaceUpdateConfig = some cfg ∧
      cfg.osUpdateCommand = some cmd ∧
      cmd ∈ (Reconcile c A osc).extensionFiles.map File.path ∧
      ∀ u ∈ (Reconcile c A osc).extensionUnits, ∀ p ∈ u.filePaths,
        p ∈ (Reconcile c A osc).extensionFiles.map File.path := by
  rw [reconcile_eq_of_purpose_reconcile c A osc h]
  refine ⟨_, filepathJoin A.scriptLocation "inplace-update.sh", rfl, rfl, ?_, ?_⟩
  · simp
  · intro u hu p hp
    simp only [List.mem_cons, List.not_mem_nil, or_false] at hu
    rcases hu with hu | hu <;> subst hu <;>
      simp only [List.mem_cons, List.not_mem_nil, or_false] at hp <;>
      rcases hp with hp | hp <;> subst hp <;> simp

/-- Witness for C3 at a concrete reconcile request. -/
theorem reconcile_referential_integrity_witness :
    ∃ cfg cmd,
      (Reconcile okCollaborators sampleAssets oscReconcile).inPlaceUpdateConfig = some cfg ∧
      cfg.osUpdateCommand = some cmd ∧
      cmd ∈ (Reconcile okCollaborators sampleAssets oscReconcile).extensionFiles.map File.path ∧
      ∀ u ∈ (Reconcile okCollaborators sampleAssets oscReconcile).extensionUnits,
        ∀ p ∈ u.filePaths,
          p ∈ (Reconcile okCollaborators sampleAssets oscReconcile).extensionFiles.map File.path :=
  reconcile_referential_integrity okCollaborators sampleAssets oscReconcile rfl

/-- C4: `Restore` returns exactly what `Reconcile` returns on the same
request, for every collaborator pair, asset store, and request. -/
theorem restore_equals_reconcile (c : Collaborators) (A : GardenLinuxAssets)
    (osc : OperatingSystemConfig) : Restore c A osc = Reconcile c A osc := rfl

/-- C5 (amended): for every memory-variant request whose configuration is
derivable, the wrapper returns the envelope, and — provided the wrapped
script has no line starting with either key and the present field values
are newline-free — the envelope has a `system_memory=` line exactly when
`systemMemory` is present, then exactly one such line carrying the exact
field value, and symmetrically for `mem_topology=`; an absent field
produces no such line at all. -/
theorem memory_envelope_key_lines (osc : OperatingSystemConfig)
    (cfg : Option MemoryOneConfiguration) (input : String)
    (hc : Configuration osc = Except.ok cfg)
    (hs1 : (allLines input.data).filter sysP = [])
    (hs2 : (allLines input.data).filter topoP = [])
    (hclean : ∀ mc, cfg = some mc →
      (∀ sm, mc.systemMemory = some sm → '\n' ∉ sm.data) ∧
      (∀ mt, mc.memoryTopology = some mt → '\n' ∉ mt.data)) :
    wrapIntoMemoryOneHeaderAndFooter osc input =
      Except.ok (memoryOneEnvelope cfg input) ∧
    (∀ sm, cfg.bind MemoryOneConfiguration.systemMemory = some sm →
      (allLines (memoryOneEnvelope cfg input).data).filter sysP =
        [sysKey ++ sm.data]) ∧
    (cfg.bind MemoryOneConfiguration.systemMemory = none →
      (allLines (memoryOneEnvelope cfg input).data).filter sysP = []) ∧
    (∀ mt, cfg.bind MemoryOneConfiguration.memoryTopology = some mt →
      (allLines (memoryOneEnvelope cfg input).data).filter topoP =
        [topoKey ++ mt.data]) ∧
    (cfg.bind MemoryOneConfiguration.memoryTopology = none →
      (allLines (memoryOneEnvelope cfg input).data).filter topoP = []) := by
  have hwrap : wrapIntoMemoryOneHeaderAndFooter osc input =
      Except.ok (memoryOneEnvelope cfg input) := by
    unfold wrapIntoMemoryOneHeaderAndFooter
    rw [hc]
  rcases cfg with _ | ⟨smOpt, mtOpt⟩
  · refine ⟨hwrap, ?_, ?_, ?_, ?_⟩
    · intro sm h
      simp at h
    · intro _
      rw [memoryOneEnvelope_lines_none input, List.filter_append,
        List.filter_append, hs1, filter_sysP_fixed₆, filter_sysP_last]
      rfl
    · intro mt h
      simp at h
    · intro _
      rw [memoryOneEnvelope_lines_none input, List.filter_append,
        List.filter_append, hs2, filter_topoP_fixed₆, filter_topoP_last]
      rfl
  · obtain ⟨hcl1, hcl2⟩ := hclean ⟨smOpt, mtOpt⟩ rfl
    refine ⟨hwrap, ?_, ?_, ?_, ?_⟩
    · intro sm h
      have hsm : smOpt = some sm := by simpa using h
      subst hsm
      rcases mtOpt with _ | mt
      · rw [envLines_sm sm input (hcl1 sm rfl), List.filter_append,
          List.filter_append, List.filter_append, List.filter_append,
          hs1, filter_sysP_fixed₄, filter_sysP_sys, filter_sysP_tail₂,
          filter_sysP_last]
        rfl
      · rw [envLines_smmt sm mt input (hcl1 sm rfl) (hcl2 mt rfl),
          List.filter_append, List.filter_append, List.filter_append,
          List.filter_append, List.filter_append,
          hs1, filter_sysP_fixed₄, filter_sysP_sys, filter_sysP_topo,
          filter_sysP_tail₂, filter_sysP_last]
        rfl
    · intro h
      have hsm : smOpt = none := by simpa using h
      subst hsm
      rcases mtOpt with _ | mt
      · rw [envLines_nonecfg input, List.filter_append, List.filter_append,
          hs1, filter_sysP_fixed₆, filter_sysP_last]
        rfl
      · rw [envLines_mt mt input (hcl2 mt rfl), List.filter_append,
          List.filter_append, List.filter_append, List.filter_append,
          hs1, filter_sysP_fixed₄, filter_sysP_topo, filter_sysP_tail₂,
          filter_sysP_last]
        rfl
    · intro mt h
      have hmt : mtOpt = some mt := by simpa using h
      subst hmt
      rcases smOpt with _ | sm
      · rw [envLines_mt mt input (hcl2 mt rfl), List.filter_append,
          List.filter_append, List.filter_append, List.filter_append,
          hs2, filter_topoP_fixed₄, filter_topoP_topo, filter_topoP_tail₂,
          filter_topoP_last]
        rfl
      · rw [envLines_smmt sm mt input (hcl1 sm rfl) (hcl2 mt rfl),
          List.filter_append, List.filter_append, List.filter_append,
          List.filter_append, List.filter_append,
          hs2, filter_topoP_fixed₄, filter_topoP_sys, filter_topoP_topo,
          filter_topoP_tail₂, filter_topoP_last]
        rfl
    · intro h
      have hmt : mtOpt = none := by simpa using h
      subst hmt
      rcases smOpt with _ | sm
      · rw [envLines_nonecfg input, List.filter_append, List.filter_append,
          hs2, filter_topoP_fixed₆, filter_topoP_last]
        rfl
      · rw [envLines_sm sm input (hcl1 sm rfl), List.filter_append,
          List.filter_append, List.filter_append, List.filter_append,
          hs2, filter_topoP_fixed₄, filter_topoP_sys, filter_topoP_tail₂,
          filter_topoP_last]
        rfl

/-- Witness for C5 (amended) at a concrete memory-variant configuration
with `systemMemory = "4G"` and `memoryTopology` absent. -/
theorem memory_envelope_key_lines_witness :
    wrapIntoMemoryOneHeaderAndFooter oscMemoryWitness "echo ok" =
      Except.ok (memoryOneEnvelope sampleMemCfg "echo ok") ∧
    (∀ sm, sampleMemCfg.bind MemoryOneConfiguration.systemMemory = some sm →
      (allLines (memoryOneEnvelope sampleMemCfg "echo ok").data).filter sysP =
        [sysKey ++ sm.data]) ∧
    (sampleMemCfg.bind MemoryOneConfiguration.systemMemory = none →
      (allLines (memoryOneEnvelope sampleMemCfg "echo ok").data).filter sysP = []) ∧
    (∀ mt, sampleMemCfg.bind MemoryOneConfiguration.memoryTopology = some mt →
      (allLines (memoryOneEnvelope sampleMemCfg "echo ok").data).filter topoP =
        [topoKey ++ mt.data]) ∧
    (sampleMemCfg.bind MemoryOneConfiguration.memoryTopology = none →
      (allLines (memoryOneEnvelope sampleMemCfg "echo ok").data).filter topoP = []) :=
  memory_envelope_key_lines oscMemoryWitness sampleMemCfg "echo ok" rfl
    (by decide) (by decide)
    (fun mc hmc => by
      cases Option.some.inj hmc
      exact ⟨fun sm hsm => by cases Option.some.inj hsm; decide,
        fun mt hmt => Option.noConfusion hmt⟩)

/-- Counterexample to C5 as stated: a memory-variant request whose derived
configuration has `systemMemory` absent, but whose rendered file fragment
contains a `system_memory=4G` line, yields an envelope that does contain
a `system_memory=` line. -/
theorem memory_envelope_injection :
    Configuration oscMemoryInjection = Except.ok (some ⟨none, none⟩) ∧
    (Reconcile injectCollaborators sampleAssets oscMemoryInjection).userData =
      some (memoryOneEnvelope (some ⟨none, none⟩)
        (composeProvisionScript "system_memory=4G"
          (injectCollaborators.unitsToDiskScript oscMemoryInjection.spec.units)
          oscMemoryInjection.spec.units)) ∧
    (allLines (memoryOneEnvelope (some ⟨none, none⟩)
        (composeProvisionScript "system_memory=4G"
          (injectCollaborators.unitsToDiskScript oscMemoryInjection.spec.units)
          oscMemoryInjection.spec.units)).data).filter sysP ≠ [] := by
  refine ⟨rfl, ?_, ?_⟩
  · rw [reconcile_provision_memory injectCollaborators sampleAssets
      oscMemoryInjection "system_memory=4G" (some ⟨none, none⟩) rfl rfl rfl rfl]
  · intro hnil
    have hm : "system_memory=4G".data ∈
        allLines (memoryOneEnvelope (some ⟨none, none⟩)
          (composeProvisionScript "system_memory=4G"
            (injectCollaborators.unitsToDiskScript oscMemoryInjection.spec.units)
            oscMemoryInjection.spec.units)).data := by decide
    have hp : sysP "system_memory=4G".data = true := rfl
    have hmf := List.mem_filter.mpr ⟨hm, hp⟩
    rw [hnil] at hmf
    exact absurd hmf (List.not_mem_nil _)

/-- C6 (amended): for every provision-purpose request with a successful
file render — if the OS type is not the memory-variant identifier, the
returned bytes begin with `#!/bin/bash`, and contain no MIME boundary
marker provided the rendered fragments and the declared unit names
contain none; if the OS type is the memory-variant identifier and the
memory configuration is derivable, the returned bytes begin with the
literal line `Content-Type: multipart/mixed; boundary="==BOUNDARY=="`
and contain the composed script verbatim between boundary markers. -/
theorem provision_output_format (c : Collaborators) (A : GardenLinuxAssets)
    (osc : OperatingSystemConfig) (f : String)
    (hp : osc.spec.purpose = OperatingSystemConfigPurposeProvision)
    (hf : c.filesToDiskScript osc.namespaceName osc.spec.files = Except.ok f) :
    (osc.spec.type ≠ OSTypeMemoryOneGardenLinux →
      ∃ script, (Reconcile c A osc).userData = some script ∧
        "#!/bin/bash".data <+: script.data ∧
        ((¬ boundaryMarker <:+: f.data) →
          (¬ boundaryMarker <:+: (c.unitsToDiskScript osc.spec.units).data) →
          (∀ unit ∈ osc.spec.units, ¬ boundaryMarker <:+: unit.name.data) →
          ¬ boundaryMarker <:+: script.data)) ∧
    (osc.spec.type = OSTypeMemoryOneGardenLinux →
      ∀ cfg, Configuration osc = Except.ok cfg →
        ∃ env, (Reconcile c A osc).userData = some env ∧
          "Content-Type: multipart/mixed; boundary=\"==BOUNDARY==\"\n".data <+: env.data ∧
          ("\n--==BOUNDARY==\nContent-Type: text/x-shellscript\n" ++
            composeProvisionScript f (c.unitsToDiskScript osc.spec.units)
              osc.spec.units ++ "\n--==BOUNDARY==").data <:+: env.data) := by
  constructor
  · intro ht
    refine ⟨composeProvisionScript f (c.unitsToDiskScript osc.spec.units)
      osc.spec.units, ?_, ?_, ?_⟩
    · rw [reconcile_provision_plain c A osc f hp ht hf]
    · rw [composeProvisionScript_append]
      unfold composeProvisionScript
      simp only [List.foldl_nil, String.data_append, List.append_assoc]
      exact List.IsPrefix.trans (by decide) (List.prefix_append _ _)
    · intro h1 h2 h3
      exact composeProvisionScript_no_marker f _ osc.spec.units h1 h2 h3
  · intro ht cfg hc
    refine ⟨memoryOneEnvelope cfg (composeProvisionScript f
      (c.unitsToDiskScript osc.spec.units) osc.spec.units), ?_, ?_, ?_⟩
    · rw [reconcile_provision_memory c A osc f cfg hp ht hf hc]
    · obtain ⟨mid, hmid⟩ := memoryOneEnvelope_decomp cfg
        (composeProvisionScript f (c.unitsToDiskScript osc.spec.units) osc.spec.units)
      rw [hmid]
      simp only [String.data_append, List.append_assoc]
      exact List.IsPrefix.trans (by decide) (List.prefix_append _ _)
    · obtain ⟨mid, hmid⟩ := memoryOneEnvelope_decomp cfg
        (composeProvisionScript f (c.unitsToDiskScript osc.spec.units) osc.spec.units)
      rw [hmid]
      simp only [String.data_append]
      exact (List.suffix_append _ _).isInfix

/-- Witness for C6 (amended) at a concrete non-memory provision request. -/
theorem provision_output_format_witness :
    (oscProvisionUnits.spec.type ≠ OSTypeMemoryOneGardenLinux →
      ∃ script, (Reconcile okCollaborators sampleAssets oscProvisionUnits).userData =
          some script ∧
        "#!/bin/bash".data <+: script.data ∧
        ((¬ boundaryMarker <:+: ("" : String).data) →
          (¬ boundaryMarker <:+:
            (okCollaborators.unitsToDiskScript oscProvisionUnits.spec.units).data) →
          (∀ unit ∈ oscProvisionUnits.spec.units,
            ¬ boundaryMarker <:+: unit.name.data) →
          ¬ boundaryMarker <:+: script.data)) ∧
    (oscProvisionUnits.spec.type = OSTypeMemoryOneGardenLinux →
      ∀ cfg, Configuration oscProvisionUnits = Except.ok cfg →
        ∃ env, (Reconcile okCollaborators sampleAssets oscProvisionUnits).userData =
            some env ∧
          "Content-Type: multipart/mixed; boundary=\"==BOUNDARY==\"\n".data <+: env.data ∧
          ("\n--==BOUNDARY==\nContent-Type: text/x-shellscript\n" ++
            composeProvisionScript ""
              (okCollaborators.unitsToDiskScript oscProvisionUnits.spec.units)
              oscProvisionUnits.spec.units ++ "\n--==BOUNDARY==").data <:+: env.data) :=
  provision_output_format okCollaborators sampleAssets oscProvisionUnits "" rfl rfl

/-- Counterexample to C6 as stated: a provision-purpose request on a
non-memory OS type declaring a unit named `--==BOUNDARY==` succeeds, yet
its returned script does contain the MIME boundary marker. -/
theorem provision_boundary_injection :
    (Reconcile okCollaborators sampleAssets oscProvisionBoundary).err = none ∧
    oscProvisionBoundary.spec.type ≠ OSTypeMemoryOneGardenLinux ∧
    boundaryMarker <:+:
      (((Reconcile okCollaborators sampleAssets oscProvisionBoundary).userData).getD
        "").data := by
  have h1 := reconcile_provision_plain okCollaborators sampleAssets
    oscProvisionBoundary "" rfl (by decide) rfl
  refine ⟨by rw [h1], by decide, ?_⟩
  rw [h1]
  show boundaryMarker <:+: (composeProvisionScript "" "" oscProvisionBoundary.spec.units).data
  rw [composeProvisionScript_append]
  simp only [String.data_append]
  exact List.IsInfix.trans (by decide) (List.suffix_append _ _).isInfix

/-- C7: for every provision-purpose request with a successful file render,
the script handed back for a non-memory OS type is the composed script,
and the composed script is the unit-free composition (fixed preamble,
rendered fragments, fixed middle) followed, in the input order of the
declared units, by exactly one line per unit of the literal form
`systemctl enable '<name>' && systemctl restart --no-block '<name>'`
with the unit name interpolated unescaped. -/
theorem provision_unit_enable_lines (c : Collaborators) (A : GardenLinuxAssets)
    (osc : OperatingSystemConfig) (f : String)
    (hp : osc.spec.purpose = OperatingSystemConfigPurposeProvision)
    (hf : c.filesToDiskScript osc.namespaceName osc.spec.files = Except.ok f) :
    (osc.spec.type ≠ OSTypeMemoryOneGardenLinux →
      (Reconcile c A osc).userData =
        some (composeProvisionScript f (c.unitsToDiskScript osc.spec.units)
          osc.spec.units)) ∧
    ∀ w u : String,
      composeProvisionScript w u osc.spec.units =
        composeProvisionScript w u [] ++
          (osc.spec.units.map fun unit =>
            "systemctl enable \x27" ++ unit.name ++
              "\x27 && systemctl restart --no-block \x27" ++ unit.name ++
              "\x27\n").foldr (· ++ ·) "" := by
  constructor
  · intro ht
    rw [reconcile_provision_plain c A osc f hp ht hf]
  · intro w u
    exact composeProvisionScript_append w u osc.spec.units

/-- Witness for C7 at a concrete provision request declaring
`foo.service`. -/
theorem provision_unit_enable_lines_witness :
    (oscProvisionUnits.spec.type ≠ OSTypeMemoryOneGardenLinux →
      (Reconcile okCollaborators sampleAssets oscProvisionUnits).userData =
        some (composeProvisionScript ""
          (okCollaborators.unitsToDiskScript oscProvisionUnits.spec.units)
          oscProvisionUnits.spec.units)) ∧
    ∀ w u : String,
      composeProvisionScript w u oscProvisionUnits.spec.units =
        composeProvisionScript w u [] ++
          (oscProvisionUnits.spec.units.map fun unit =>
            "systemctl enable \x27" ++ unit.name ++
              "\x27 && systemctl restart --no-block \x27" ++ unit.name ++
              "\x27\n").foldr (· ++ ·) "" :=
  provision_unit_enable_lines okCollaborators sampleAssets oscProvisionUnits "" rfl rfl

/-- C8: for every provision-purpose request, a failing file-to-disk
render, or (for the memory variant) a failing memory-configuration
derivation, makes the dispatcher return that error unchanged together
with an empty script and no other artifacts. -/
theorem provision_error_propagation (c : Collaborators) (A : GardenLinuxAssets)
    (osc : OperatingSystemConfig)
    (hp : osc.spec.purpose = OperatingSystemConfigPurposeProvision) :
    (∀ e, c.filesToDiskScript osc.namespaceName osc.spec.files = Except.error e →
        Reconcile c A osc = ⟨some "", [], [], none, some e⟩) ∧
    (∀ s e, c.filesToDiskScript osc.namespaceName osc.spec.files = Except.ok s →
        osc.spec.type = OSTypeMemoryOneGardenLinux →
        Configuration osc = Except.error e →
        Reconcile c A osc = ⟨some "", [], [], none, some e⟩) := by
  constructor
  · intro e he
    have h1 : handleProvisionOSC c osc = Except.error e := by
      unfold handleProvisionOSC
      rw [he]
    unfold Reconcile
    rw [hp, if_pos rfl, h1]
  · intro s e hs ht hc
    have h1 : handleProvisionOSC c osc = Except.error e := by
      unfold handleProvisionOSC
      rw [hs]
      simp only [ht, if_true, eq_self_iff_true, if_pos]
      unfold wrapIntoMemoryOneHeaderAndFooter
      rw [hc]
    unfold Reconcile
    rw [hp, if_pos rfl, h1]

/-- Witness for C8: a provision request whose file renderer fails. -/
theorem provision_error_propagation_witness :
    (∀ e, failCollaborators.filesToDiskScript oscProvisionMemoryBad.namespaceName
          oscProvisionMemoryBad.spec.files = Except.error e →
        Reconcile failCollaborators sampleAssets oscProvisionMemoryBad =
          ⟨some "", [], [], none, some e⟩) ∧
    (∀ s e, failCollaborators.filesToDiskScript oscProvisionMemoryBad.namespaceName
          oscProvisionMemoryBad.spec.files = Except.ok s →
        oscProvisionMemoryBad.spec.type = OSTypeMemoryOneGardenLinux →
        Configuration oscProvisionMemoryBad = Except.error e →
        Reconcile failCollaborators sampleAssets oscProvisionMemoryBad =
          ⟨some "", [], [], none, some e⟩) :=
  provision_error_propagation failCollaborators sampleAssets oscProvisionMemoryBad rfl

/-- C9: `Delete` always succeeds with nil error and produces nothing, and
`Migrate` and `ForceDelete` return exactly what `Delete` returns. -/
theorem delete_noop_and_aliases (osc : OperatingSystemConfig) :
    Delete osc = none ∧ Migrate osc = Delete osc ∧ ForceDelete osc = Delete osc :=
  ⟨rfl, rfl, rfl⟩

/-- C10: the reconcile artifact builder is a deterministic function of the
request's OS version alone — any two requests agreeing on the OS version
yield identical (units, files, update-config) output — and it never
returns an error. -/
theorem handleReconcileOSC_deterministic (A : GardenLinuxAssets)
    (osc1 osc2 : OperatingSystemConfig)
    (h : osc1.spec.osVersion = osc2.spec.osVersion) :
    handleReconcileOSC A osc1 = handleReconcileOSC A osc2 ∧
      (handleReconcileOSC A osc1).2.2.2 = none := by
  constructor
  · unfold handleReconcileOSC
    rw [h]
  · rfl

/-- Witness for C10: two requests differing in namespace, type, files,
and units but agreeing on the OS version. -/
theorem handleReconcileOSC_deterministic_witness :
    handleReconcileOSC sampleAssets oscReconcile =
        handleReconcileOSC sampleAssets oscReconcileVariant ∧
      (handleReconcileOSC sampleAssets oscReconcile).2.2.2 = none :=
  handleReconcileOSC_deterministic sampleAssets oscReconcile oscReconcileVariant rfl

end GardenLinuxExt
